import Mathlib

set_option maxRecDepth 4000

/-!
Verification development for the iterative repair core of the autonomous
CI/CD healing agent (backend/agent).  The Python sources are embedded
shallowly: defect records become a structure, the parser regexes become
deterministic scanners (every repetition in the relevant patterns is
followed by a character excluded from its class, so greedy matching
without backtracking is exact), and the stateful nodes become pure
functions from their inputs (state, re-extraction results, provider
outcomes) to their returned deltas.
-/

/-! ## String helpers mirroring Python primitives -/

/-- Python `needle.isWithin hay` test, leading-segment form: `listStarts n h`
is true when `n` is an initial segment of `h`. -/
def listStarts : List Char → List Char → Bool
  | [], _ => true
  | _ :: _, [] => false
  | c :: cs, d :: ds => c == d && listStarts cs ds

/-- Python substring containment `needle in hay` on character lists. -/
def containsSub (needle : List Char) : List Char → Bool
  | [] => listStarts needle []
  | c :: rest => listStarts needle (c :: rest) || containsSub needle rest

/-- Python `needle in hay` for strings. -/
def strContains (hay needle : String) : Bool :=
  containsSub needle.data hay.data

/-- Python `s.startswith(p)` for strings. -/
def strStarts (s p : String) : Bool :=
  listStarts p.data s.data

/-- Python `str.lower()` (the repository only lowercases ASCII pattern
text, where `Char.toLower` agrees with Python). -/
def toLowerStr (s : String) : String :=
  String.mk (s.data.map Char.toLower)

/-- Python truthiness of an optional environment string (`os.getenv`
result): `None` and the empty string are falsy. -/
def truthy : Option String → Bool
  | none => false
  | some s => !(s == "")

/-! ## Canonical defect record (parsers.py `build_fix_dict`, state.py `FixItem`) -/

/-- One defect record as built by `build_fix_dict` in parsers.py. -/
structure FixItem where
  id : String
  type : String
  file : String
  line : Nat
  message : String
  formatted : String
  fix_description : String
  commit_message : String
  status : String
deriving Repr, DecidableEq

/-- Python `file.replace(slash, underscore)` used inside `build_fix_id`;
replacing a single character is a character-wise map. -/
def pySlashToUnderscore (s : String) : String :=
  String.mk (s.data.map (fun c => if c = '/' then '_' else c))

/-- parsers.py lines 54-57: fix ID generation (the `lru_cache` only
memoizes this pure function). -/
def build_fix_id (type_str : String) (file : String) (line : Nat) : String :=
  type_str ++ "_" ++ pySlashToUnderscore file ++ "_" ++ Nat.repr line

/-- parsers.py lines 59-73: build the defect dictionary. -/
def build_fix_dict (type_str file : String) (line : Nat) (message fix_desc : String) : FixItem :=
  { id := build_fix_id type_str file line
    type := type_str
    file := file
    line := line
    message := message
    formatted := type_str ++ " error in " ++ file ++ " line " ++ Nat.repr line ++ " → Fix: " ++ fix_desc
    fix_description := fix_desc
    commit_message := "[AI-AGENT] Fix " ++ type_str ++ " in " ++ file ++ " line " ++ Nat.repr line
    status := "pending" }

/-- parsers.py lines 362-376 `deduplicate`, inner loop with its `seen`
set of ids. -/
def dedupGo : List String → List FixItem → List FixItem
  | _, [] => []
  | seen, f :: rest =>
    if f.id ∈ seen then dedupGo seen rest
    else f :: dedupGo (f.id :: seen) rest

/-- parsers.py `deduplicate`: keep the first record for every id. -/
def deduplicate (fixes : List FixItem) : List FixItem :=
  dedupGo [] fixes

/-! ## flake8 parser (parsers.py lines 10-11, 31-42, 75-100)

The compiled pattern is `([^:\n]+):(\d+):\d+: ([EW]\d+) (.+)` and is run
with `finditer`.  Each repetition in the pattern is followed by a
character its class excludes, so the scanner below (greedy max-munch at
every start offset, left to right, continuing after each match) computes
exactly the `finditer` matches. -/

/-- Decimal value of a digit character. -/
def digitVal (c : Char) : Nat := c.toNat - '0'.toNat

/-- Python `int` on a nonempty string of decimal digits. -/
def decValue (cs : List Char) : Nat :=
  cs.foldl (fun a c => a * 10 + digitVal c) 0

/-- One anchored match attempt of the flake8 pattern, returning
(file, line, code, message, rest-of-input after the match). -/
def matchFlake8At (cs : List Char) : Option (String × Nat × String × String × List Char) :=
  let fpart := cs.takeWhile (fun c => !(c = ':' || c = '\n'))
  let rest1 := cs.drop fpart.length
  if fpart.isEmpty then none else
  match rest1 with
  | ':' :: r2 =>
    let d1 := r2.takeWhile Char.isDigit
    let r3 := r2.drop d1.length
    if d1.isEmpty then none else
    match r3 with
    | ':' :: r4 =>
      let d2 := r4.takeWhile Char.isDigit
      let r5 := r4.drop d2.length
      if d2.isEmpty then none else
      match r5 with
      | ':' :: ' ' :: code0 :: r7 =>
        if code0 = 'E' || code0 = 'W' then
          let d3 := r7.takeWhile Char.isDigit
          let r8 := r7.drop d3.length
          if d3.isEmpty then none else
          match r8 with
          | ' ' :: r9 =>
            let msg := r9.takeWhile (fun ch => !(ch = '\n'))
            let r10 := r9.drop msg.length
            if msg.isEmpty then none
            else some (String.mk fpart, decValue d1, String.mk (code0 :: d3), String.mk msg, r10)
          | _ => none
        else none
      | _ => none
    | _ => none
  | _ => none

/-- parsers.py lines 31-35 `FLAKE8_TYPE_MAP` (exact-key dictionary). -/
def FLAKE8_TYPE_MAP : List (String × String) :=
  [("F401", "IMPORT"), ("F403", "IMPORT"), ("F811", "IMPORT"),
   ("W191", "INDENTATION"), ("W291", "INDENTATION"), ("E9", "SYNTAX")]

/-- parsers.py lines 37-42 `FLAKE8_FIX_MAP`. -/
def FLAKE8_FIX_MAP : List (String × String) :=
  [("F401", "remove the import statement"), ("E302", "add blank lines before function"),
   ("E501", "shorten the line length"), ("W291", "remove trailing whitespace")]

/-- parsers.py lines 85-93: type lookup with fallback heuristics. -/
def flake8ErrorType (code message : String) : String :=
  match FLAKE8_TYPE_MAP.lookup code with
  | some t => t
  | none =>
    if strStarts code "E9" then "SYNTAX"
    else if strStarts code "E1" && strContains (toLowerStr message) "indent" then "INDENTATION"
    else "LINTING"

/-- Defect built from one flake8 match (parsers.py lines 82-98). -/
def mkFlake8Fix (file : String) (line : Nat) (code message : String) : FixItem :=
  build_fix_dict (flake8ErrorType code message) file line message
    ((FLAKE8_FIX_MAP.lookup code).getD "fix the linting issue")

/-- The `finditer` scan: try every offset left to right, continue after a
match.  `fuel` bounds the recursion; it is instantiated with the input
length, which a scan never exhausts since every match consumes at least
one character. -/
def flake8Scan : Nat → List Char → List FixItem
  | 0, _ => []
  | _, [] => []
  | fuel + 1, c :: cs =>
    match matchFlake8At (c :: cs) with
    | some (file, line, code, msg, rest) => mkFlake8Fix file line code msg :: flake8Scan fuel rest
    | none => flake8Scan fuel cs

/-- parsers.py lines 75-100 `parse_flake8`. -/
def parse_flake8 (raw : String) : List FixItem :=
  flake8Scan raw.data.length raw.data

/-! ## pytest parser (parsers.py lines 13, 112-120)

Pattern `FAILED ([^:\n]+)::([^\n]+)`, same backtracking-free scan. -/

/-- One anchored match attempt of the pytest pattern, returning
(test file path, test name part, rest). -/
def matchPytestAt (cs : List Char) : Option (String × String × List Char) :=
  match cs with
  | 'F' :: 'A' :: 'I' :: 'L' :: 'E' :: 'D' :: ' ' :: r1 =>
    let fpart := r1.takeWhile (fun c => !(c = ':' || c = '\n'))
    let r2 := r1.drop fpart.length
    if fpart.isEmpty then none else
    match r2 with
    | ':' :: ':' :: r3 =>
      let tname := r3.takeWhile (fun c => !(c = '\n'))
      let r4 := r3.drop tname.length
      if tname.isEmpty then none else some (String.mk fpart, String.mk tname, r4)
    | _ => none
  | _ => none

/-- Defect built from one pytest match (parsers.py lines 117-119): kind
LOGIC, the failing test file path, line 0. -/
def mkPytestFix (fpath tname : String) : FixItem :=
  build_fix_dict "LOGIC" fpath 0 ("Test failed: " ++ tname)
    "fix the logic error causing test failure"

/-- The `finditer` scan for the pytest pattern. -/
def pytestScan : Nat → List Char → List FixItem
  | 0, _ => []
  | _, [] => []
  | fuel + 1, c :: cs =>
    match matchPytestAt (c :: cs) with
    | some (fpath, tname, rest) => mkPytestFix fpath tname :: pytestScan fuel rest
    | none => pytestScan fuel cs

/-- parsers.py lines 112-120 `parse_pytest`. -/
def parse_pytest (raw : String) : List FixItem :=
  pytestScan raw.data.length raw.data

/-! ## Analyze node (analyze_node.py lines 11-82)

The per-language parser routing (lines 26-42) produces a list of parsed
defects; the merge below is lines 44-60 applied to that list and to the
state's cumulative `fixes`. -/

/-- Statuses treated as terminal in analyze_node.py line 48. -/
def terminalStatuses : List String := ["fixed", "failed", "skipped"]

/-- Membership test for a terminal status. -/
def isTerminal (f : FixItem) : Bool := terminalStatuses.contains f.status

/-- analyze_node.py lines 51 and 54: the cross-iteration fingerprint
string `file:line:type`. -/
def fingerprintOf (f : FixItem) : String :=
  f.file ++ ":" ++ Nat.repr f.line ++ ":" ++ f.type

/-- analyze_node.py lines 52-57: forward only new fixes whose fingerprint
has not been seen, extending the seen set as the loop goes. -/
def filterNewFixes : List String → List FixItem → List FixItem
  | _, [] => []
  | fps, nf :: rest =>
    if fingerprintOf nf ∈ fps then filterNewFixes fps rest
    else nf :: filterNewFixes (fingerprintOf nf :: fps) rest

/-- The delta returned by `analyze_errors` (fields the claims are about). -/
structure AnalyzeResult where
  fixes : List FixItem
  errors_found : Nat
  status : String
deriving Repr, DecidableEq

/-- analyze_node.py lines 44-72 `analyze_errors`, as a function of the
state's cumulative fixes and of the freshly parsed defects. -/
def analyze_errors (stateFixes : List FixItem) (parsedNew : List FixItem) : AnalyzeResult :=
  let new_fixes := (deduplicate parsedNew).take 50
  let existing_fixes := stateFixes.filter (fun f => isTerminal f)
  let filtered := filterNewFixes (existing_fixes.map fingerprintOf) new_fixes
  { fixes := existing_fixes ++ filtered
    errors_found := filtered.length
    status := if filtered.isEmpty then "verifying" else "fixing" }

/-- Number of records still PENDING in a defect list. -/
def countPending (l : List FixItem) : Nat :=
  (l.filter (fun f => f.status == "pending")).length

/-! ## Verify node (verify_node.py lines 7-185)

The subprocess re-runs (lines 33-137) produce raw text that is handed to
`analyze_errors`; the decision logic is a function of the state and of
the re-extraction's parsed defects. -/

/-- The slice of `AgentState` the verify decision reads. -/
structure VerifyState where
  errors_found : Nat
  retry_count : Nat
  retry_limit : Nat
  fixes : List FixItem
deriving Repr, DecidableEq

/-- The merged state after the verify node's delta is applied. -/
structure VerifyResult where
  verify_passed : Bool
  status : String
  fixes : List FixItem
  errors_found : Nat
  retry_count : Nat
deriving Repr, DecidableEq

/-- verify_node.py lines 7-185 `verify_fixes`: the clean-repo branch
(lines 12-26), then `remaining = analyze_errors(...)["fixes"]` (lines
140-143) and the three-way decision (lines 158-185).  Fields the node
does not return keep their state value, mirroring the LangGraph merge. -/
def verify_fixes (s : VerifyState) (reExtracted : List FixItem) : VerifyResult :=
  if s.errors_found = 0 then
    { verify_passed := true, status := "pushing", fixes := s.fixes,
      errors_found := s.errors_found, retry_count := s.retry_count }
  else
    let remaining := (analyze_errors s.fixes reExtracted).fixes
    if remaining.length = 0 then
      { verify_passed := true, status := "pushing", fixes := s.fixes,
        errors_found := s.errors_found, retry_count := s.retry_count }
    else if s.retry_count < s.retry_limit then
      { verify_passed := false, status := "fixing", fixes := remaining,
        errors_found := remaining.length, retry_count := s.retry_count + 1 }
    else
      { verify_passed := false, status := "pushing", fixes := s.fixes,
        errors_found := s.errors_found, retry_count := s.retry_count }

/-! ## Fix dispatch engine (fix_node.py lines 18-303)

The provider (`call_ai_with_retry`, whose own retry internals are
modelled separately below) is abstracted as a per-file outcome oracle;
the markdown-stripping post-processing of lines 200-217 is abstracted as
an arbitrary `clean` function since no claim depends on the written
text.  Files are modelled as always readable, so the read-error branch
of lines 149-156 (which also marks the group failed) is not reachable in
the model. -/

/-- fix_node.py lines 117-119 `SKIP_PATTERNS`. -/
def SKIP_PATTERNS : List String :=
  [".test.js", ".spec.js", ".test.ts", ".spec.ts",
   ".test.jsx", ".spec.jsx", "_test.go", "_test.py",
   "test_", ".test.", ".spec.", "/test/", "/tests/"]

/-- fix_node.py line 125: `any(pattern in fix.file.lower() ...)`. -/
def matchesSkip (file : String) : Bool :=
  SKIP_PATTERNS.any (fun p => strContains (toLowerStr file) p)

/-- Outcome of one provider call for a file's content. -/
inductive AIResult where
  | success (code : String)
  | failure (err : String)

/-- Environment of one dispatch pass: API keys, the working tree, the
provider oracle, and the post-processing of accepted patches. -/
structure FixEnv where
  groq_key : Option String
  openai_key : Option String
  fs : List (String × String)
  provider : String → String → AIResult
  clean : String → String

/-- fix_node.py lines 18-30 `get_ai_client` name selection. -/
def apiNameOf (env : FixEnv) : String :=
  if truthy env.groq_key then "Groq" else "OpenAI"

/-- Per-file resolution of one dispatch attempt (fix_node.py lines
136-248): missing file, provider failure, empty provider return, or an
accepted patch. -/
inductive FileOutcome where
  | fixedCode (written : String)
  | failedWith (reason : String)
deriving Repr, DecidableEq

/-- Assoc-list read of the working tree (`open(...).read()`). -/
def fsRead (fs : List (String × String)) (file : String) : Option String :=
  fs.lookup file

/-- Assoc-list write of the working tree (`open(..., w).write(...)`). -/
def fsWrite : List (String × String) → String → String → List (String × String)
  | [], file, content => [(file, content)]
  | (k, v) :: rest, file, content =>
    if k == file then (k, content) :: rest else (k, v) :: fsWrite rest file content

/-- fix_node.py lines 136-248: what happens to the one file of a group.
All reads consult the pass's initial tree: distinct groups touch
distinct files, so earlier writes of the pass cannot affect later
reads. -/
def fileOutcome (env : FixEnv) (file : String) : FileOutcome :=
  match fsRead env.fs file with
  | none => .failedWith "File not found"
  | some content =>
    match env.provider file content with
    | .failure e => .failedWith (apiNameOf env ++ ": " ++ e.take 150)
    | .success code =>
      if code == "" then .failedWith (apiNameOf env ++ ": " ++ "AI returned empty response")
      else .fixedCode (env.clean code)

/-- True when the file's group is marked fixed. -/
def isFixedOutcome : FileOutcome → Bool
  | .fixedCode _ => true
  | .failedWith _ => false

/-- fix_node.py lines 122-129 classification of one pending record. -/
def pendingNonSkip (f : FixItem) : Bool :=
  f.status == "pending" && !matchesSkip f.file

/-- First-occurrence key order of `defaultdict(list)` insertion. -/
def insertionKeys : List String → List String :=
  fun l => l.foldl (fun acc x => if x ∈ acc then acc else acc ++ [x]) []

/-- The ordered `files_map` keys of a dispatch pass. -/
def dispatchFiles (fixes : List FixItem) : List String :=
  insertionKeys ((fixes.filter pendingNonSkip).map (fun f => f.file))

/-- Files for which the provider is actually contacted: grouped files
that exist in the working tree (a missing file is marked failed before
any provider call, lines 142-146). -/
def requestedFiles (env : FixEnv) (fixes : List FixItem) : List String :=
  (dispatchFiles fixes).filter (fun file => (fsRead env.fs file).isSome)

/-- fix_node.py lines 122-129 and 136-248: final status of one record
after the pass (mutation-in-place becomes a map over the list). -/
def updateFix (env : FixEnv) (f : FixItem) : FixItem :=
  if f.status == "pending" then
    if matchesSkip f.file then
      { f with status := "skipped", fix_description := "Test file - skipped" }
    else
      match fileOutcome env f.file with
      | .fixedCode _ =>
        { f with status := "fixed",
                 fix_description := apiNameOf env ++ " AI corrected " ++ f.type ++ " issue",
                 formatted := f.type ++ " error in " ++ f.file ++ " line " ++ Nat.repr f.line
                   ++ " → Fix: " ++ (apiNameOf env ++ " AI corrected " ++ f.type ++ " issue") }
      | .failedWith reason =>
        { f with status := "failed", fix_description := reason }
  else f

/-- fix_node.py lines 230-232: errors counted fixed = members of groups
whose file was successfully patched. -/
def errorsFixedCount (env : FixEnv) (fixes : List FixItem) : Nat :=
  (fixes.filter (fun f => pendingNonSkip f && isFixedOutcome (fileOutcome env f.file))).length

/-- fix_node.py line 232: number of successfully patched files. -/
def filesFixedCount (env : FixEnv) (fixes : List FixItem) : Nat :=
  ((dispatchFiles fixes).filter (fun file => isFixedOutcome (fileOutcome env file))).length

/-- The working tree after the pass: one write per patched file. -/
def fsAfter (env : FixEnv) (fixes : List FixItem) : List (String × String) :=
  (dispatchFiles fixes).foldl
    (fun fs file =>
      match fileOutcome env file with
      | .fixedCode content => fsWrite fs file content
      | .failedWith _ => fs)
    env.fs

/-- The delta returned by `apply_fixes` (fields the claims are about),
plus the resulting working tree and the provider-request trace. -/
structure ApplyResult where
  fixes : List FixItem
  errors_fixed : Nat
  files_fixed : Nat
  status : String
  error_message : String
  fs : List (String × String)
  requested : List String

/-- fix_node.py lines 95-278 `apply_fixes`: the missing-credentials
early return (lines 101-108), then the dispatch pass and the final
verdict (lines 250-278). -/
def apply_fixes (env : FixEnv) (stateFixes : List FixItem) : ApplyResult :=
  if !truthy env.groq_key && !truthy env.openai_key then
    { fixes := stateFixes, errors_fixed := 0, files_fixed := 0, status := "failed",
      error_message := "No API key configured (GROQ_API_KEY or OPENAI_API_KEY required)",
      fs := env.fs, requested := [] }
  else
    let ef := errorsFixedCount env stateFixes
    { fixes := stateFixes.map (updateFix env)
      errors_fixed := ef
      files_fixed := filesFixedCount env stateFixes
      status := if ef > 0 then "verifying" else "failed"
      error_message :=
        if ef > 0 then ""
        else "All fixes failed - check " ++ apiNameOf env ++ " API key and quota"
      fs := fsAfter env stateFixes
      requested := requestedFiles env stateFixes }

/-! ## Orchestrator routing (orchestrator.py lines 28-63) -/

/-- Where a conditional edge sends the run next. -/
inductive Route where
  | toFix | toVerify | toEnd
deriving Repr, DecidableEq

/-- orchestrator.py lines 40-46 `route_after_fix`. -/
def route_after_fix (status : String) : Route :=
  if status == "failed" then .toEnd
  else if status == "quota_reached" || status == "awaiting_review" then .toEnd
  else .toVerify

/-- orchestrator.py lines 54-58 `route_after_verify`. -/
def route_after_verify (status : String) : Route :=
  if status == "fixing" then .toFix else .toEnd

/-! ## Provider retry logic (fix_node.py lines 32-93 `call_ai_with_retry`)

One attempt either returns content (possibly empty) or raises; the
classification and backoff follow lines 52-91. -/

/-- Outcome of one raw API attempt. -/
inductive AttemptOutcome where
  | ok (content : String)
  | exn (message : String)
deriving Repr, DecidableEq

/-- fix_node.py line 57 rate-limit classification. -/
def isRateLimitErr (s : String) : Bool :=
  strContains s "429" || strContains (toLowerStr s) "rate_limit"
    || strContains (toLowerStr s) "rate limit"

/-- fix_node.py line 67 quota classification. -/
def isQuotaErr (s : String) : Bool :=
  strContains (toLowerStr s) "quota" || strContains (toLowerStr s) "insufficient_quota"

/-- fix_node.py line 72 authentication classification. -/
def isAuthErr (s : String) : Bool :=
  strContains s "401" || strContains (toLowerStr s) "authentication"
    || strContains (toLowerStr s) "invalid_api_key" || strContains (toLowerStr s) "api key"

/-- fix_node.py line 77 network/timeout classification. -/
def isNetworkErr (s : String) : Bool :=
  strContains (toLowerStr s) "timeout" || strContains (toLowerStr s) "connection"
    || strContains (toLowerStr s) "network"

/-- What the except-block of one failed attempt does next: sleep the
given seconds and continue, or re-raise. -/
inductive StepAction where
  | contWait (seconds : Nat)
  | raiseExn (message : String)
deriving Repr, DecidableEq

/-- fix_node.py lines 52-91: classification of the caught error string
at a given attempt index.  The network branch without a remaining
attempt falls through to the generic branch, exactly as in the source
(its `continue` is guarded, and it has no `else`). -/
def classifyStep (api_name : String) (maxR attempt : Nat) (err : String) : StepAction :=
  if isRateLimitErr err then
    if attempt < maxR - 1 then .contWait (2 ^ attempt * 3)
    else .raiseExn (api_name ++ " rate limit exceeded after " ++ Nat.repr maxR ++ " attempts")
  else if isQuotaErr err then
    .raiseExn (api_name ++ " API quota exceeded - please add credits or check billing")
  else if isAuthErr err then
    .raiseExn (api_name ++ " API key is invalid or expired")
  else if isNetworkErr err && attempt < maxR - 1 then
    .contWait (2 ^ attempt * 2)
  else if attempt < maxR - 1 then
    .contWait (2 ^ attempt + 1)
  else
    .raiseExn (api_name ++ " API failed after " ++ Nat.repr maxR ++ " attempts: " ++ err.take 200)

/-- Result of the retry loop (`.ok none` is the dead fall-through
`return None` after the for-loop) together with the sleeps performed. -/
structure RetryTrace where
  result : Except String (Option String)
  waits : List Nat
deriving Repr

/-- The for-loop of `call_ai_with_retry`: `attempt` is the current
index, the second argument the remaining iterations, and `waits`
accumulates the sleeps.  An empty returned content raises
`Empty response from API` into the same except-block (lines 46-50). -/
def retryGo (outcomes : Nat → AttemptOutcome) (api_name : String) (maxR : Nat) :
    Nat → Nat → List Nat → RetryTrace
  | _, 0, waits => { result := .ok none, waits := waits }
  | attempt, remaining + 1, waits =>
    match outcomes attempt with
    | .ok content =>
      if content == "" then
        match classifyStep api_name maxR attempt "Empty response from API" with
        | .raiseExn m => { result := .error m, waits := waits }
        | .contWait w => retryGo outcomes api_name maxR (attempt + 1) remaining (waits ++ [w])
      else { result := .ok (some content), waits := waits }
    | .exn m0 =>
      match classifyStep api_name maxR attempt m0 with
      | .raiseExn m => { result := .error m, waits := waits }
      | .contWait w => retryGo outcomes api_name maxR (attempt + 1) remaining (waits ++ [w])

/-- fix_node.py lines 32-93 `call_ai_with_retry`. -/
def call_ai_with_retry (outcomes : Nat → AttemptOutcome) (api_name : String)
    (max_retries : Nat) : RetryTrace :=
  retryGo outcomes api_name max_retries 0 max_retries []

/-- An attempt outcome handled by the generic backoff branch: an empty
returned content, or an exception matching none of the rate-limit,
quota, authentication or network classifiers. -/
def genericFailure (o : AttemptOutcome) : Prop :=
  o = .ok "" ∨ ∃ m, o = .exn m ∧ isRateLimitErr m = false ∧ isQuotaErr m = false
    ∧ isAuthErr m = false ∧ isNetworkErr m = false

/-! ## The convergence loop (orchestrator.py graph: verify -> fix -> verify)

One round is: run `verify_fixes` on the current state and the round's
re-extraction; if it routes to `fix`, run `apply_fixes` (ending the run
when that pass fails), else stop.  Oracles give each round's
re-extraction result and dispatch environment. -/

/-- How a run of the loop ends. -/
inductive LoopOutcome where
  | finalize | abandon | runFailed
deriving Repr, DecidableEq

/-- The loop driver.  `i` counts verify rounds already performed, `fuel`
bounds the recursion, and the returned number is the total count of
verify rounds (re-extraction passes).  The only statuses `apply_fixes`
produces are `verifying` and `failed`, so `route_after_fix` ends the
run exactly on `failed`. -/
def runLoop (envs : Nat → FixEnv) (extracts : Nat → List FixItem) :
    Nat → Nat → VerifyState → Option (LoopOutcome × Nat)
  | _, 0, _ => none
  | i, fuel + 1, s =>
    let r := verify_fixes s (extracts i)
    if route_after_verify r.status == Route.toFix then
      let fr := apply_fixes (envs i) r.fixes
      if route_after_fix fr.status == Route.toEnd then some (.runFailed, i + 1)
      else
        runLoop envs extracts (i + 1) fuel
          { errors_found := r.errors_found, retry_count := r.retry_count,
            retry_limit := s.retry_limit, fixes := fr.fixes }
    else if r.verify_passed then some (.finalize, i + 1)
    else some (.abandon, i + 1)

/-! ## Decimal digits of `Nat.repr` (for the fingerprint analysis) -/

/-- Most-significant-first decimal digit characters of a natural
number. -/
def natDigits (n : Nat) : List Char :=
  if n < 10 then [Nat.digitChar n]
  else natDigits (n / 10) ++ [Nat.digitChar (n % 10)]
termination_by n
decreasing_by exact Nat.div_lt_self (by omega) (by omega)

/-! ## Concrete fixtures used by closed theorems and witnesses -/

/-- A pending LINTING defect on a non-test file. -/
def fxPending : FixItem := build_fix_dict "LINTING" "app.py" 3 "unused variable" "remove it"

/-- The same defect after a successful dispatch pass. -/
def fxFixed : FixItem :=
  { build_fix_dict "LINTING" "app.py" 3 "unused variable" "remove it" with status := "fixed" }

/-- State entering verification after one fully successful dispatch
pass, with a clean re-extraction to follow. -/
def c1State : VerifyState :=
  { errors_found := 1, retry_count := 0, retry_limit := 5, fixes := [fxFixed] }

/-- A dispatch environment with a configured key whose provider always
fails. -/
def keyedEnv : FixEnv :=
  { groq_key := some "gk", openai_key := none, fs := [("app.py", "x=1")],
    provider := fun _ _ => .failure "provider down", clean := fun s => s }

/-- A dispatch environment with no configured key. -/
def keylessEnv : FixEnv :=
  { groq_key := none, openai_key := none, fs := [("app.py", "x=1")],
    provider := fun _ _ => .failure "provider down", clean := fun s => s }

/-- A pending defect whose path matches the test-path conventions. -/
def fxSkip : FixItem := build_fix_dict "LINTING" "test_app.py" 2 "unused variable" "remove it"

/-- Raw pytest output with one failing test. -/
def c9Raw : String := "FAILED tests/test_app.py::test_x"

/-- The defect the pytest parser produces from `c9Raw`. -/
def c9Fix : FixItem := mkPytestFix "tests/test_app.py" "test_x"

/-- Attempt outcomes: an empty response, then a generic exception, then
a successful patch. -/
def c7Outcomes : Nat → AttemptOutcome :=
  fun a => if a = 0 then .ok "" else if a = 1 then .exn "boom" else .ok "fixed code"

/-- The single-line linter diagnostic of the C4 scenario. -/
def c4Input : String := "src/a.py:10:1: F401 \x27os\x27 imported but unused"

/-- Oracles and state for the loop counterexample: every round
re-extracts one pending defect and every dispatch pass fails. -/
def c5Envs : Nat → FixEnv := fun _ => keyedEnv

/-- Re-extraction oracle for the loop counterexample. -/
def c5Extracts : Nat → List FixItem := fun _ => [fxPending]

/-- Initial loop state for the loop counterexample. -/
def c5State : VerifyState :=
  { errors_found := 1, retry_count := 0, retry_limit := 5, fixes := [] }

/-! # Theorems -/

/-! ## List helpers -/

theorem foldl_insert_mem (l : List String) (acc : List String) (x : String)
    (h : x ∈ l.foldl (fun a y => if y ∈ a then a else a ++ [y]) acc) :
    x ∈ acc ∨ x ∈ l := by
  induction l generalizing acc with
  | nil => exact Or.inl h
  | cons y t ih =>
    simp only [List.foldl_cons] at h
    rcases ih _ h with h2 | h2
    · by_cases hy : y ∈ acc
      · rw [if_pos hy] at h2; exact Or.inl h2
      · rw [if_neg hy] at h2
        rcases List.mem_append.1 h2 with h3 | h3
        · exact Or.inl h3
        · simp at h3; subst h3; simp
    · exact Or.inr (List.mem_cons_of_mem _ h2)

theorem foldl_insert_complete (l : List String) (acc : List String) (x : String)
    (h : x ∈ acc ∨ x ∈ l) :
    x ∈ l.foldl (fun a y => if y ∈ a then a else a ++ [y]) acc := by
  induction l generalizing acc with
  | nil => simpa using h
  | cons y t ih =>
    simp only [List.foldl_cons]
    apply ih
    rcases h with h1 | h1
    · left; split
      · exact h1
      · exact List.mem_append.2 (Or.inl h1)
    · rcases List.mem_cons.1 h1 with h2 | h2
      · subst h2; left; split
        · assumption
        · simp
      · exact Or.inr h2

theorem mem_dispatchFiles (fixes : List FixItem) (x : String)
    (h : x ∈ dispatchFiles fixes) :
    ∃ g ∈ fixes, pendingNonSkip g = true ∧ g.file = x := by
  unfold dispatchFiles insertionKeys at h
  rcases foldl_insert_mem _ _ _ h with h1 | h1
  · simp at h1
  · obtain ⟨g, hg, hgx⟩ := List.mem_map.1 h1
    exact ⟨g, (List.mem_filter.1 hg).1, (List.mem_filter.1 hg).2, hgx⟩

theorem skip_file_not_dispatched (fixes : List FixItem) (x : String)
    (hx : matchesSkip x = true) : x ∉ dispatchFiles fixes := by
  intro h
  obtain ⟨g, _, hg2, hg3⟩ := mem_dispatchFiles fixes x h
  unfold pendingNonSkip at hg2
  rw [Bool.and_eq_true] at hg2
  rw [hg3, hx] at hg2
  simp at hg2

theorem skip_file_not_requested (env : FixEnv) (fixes : List FixItem) (x : String)
    (hx : matchesSkip x = true) : x ∉ requestedFiles env fixes := by
  intro h
  exact skip_file_not_dispatched fixes x hx (List.mem_filter.1 h).1

/-! ## C10 -/

/-- C10: when neither provider API key is configured, `apply_fixes`
returns status `failed` with the fixed error message, `errors_fixed`
zero, the defect list identical to its input, an unchanged working
tree, and no provider request. -/
theorem c10_no_key_no_mutation (env : FixEnv) (fixes : List FixItem)
    (hg : truthy env.groq_key = false) (ho : truthy env.openai_key = false) :
    (apply_fixes env fixes).status = "failed"
    ∧ (apply_fixes env fixes).errors_fixed = 0
    ∧ (apply_fixes env fixes).fixes = fixes
    ∧ (apply_fixes env fixes).fs = env.fs
    ∧ (apply_fixes env fixes).requested = []
    ∧ (apply_fixes env fixes).error_message
        = "No API key configured (GROQ_API_KEY or OPENAI_API_KEY required)" := by
  refine ⟨?_, ?_, ?_, ?_, ?_, ?_⟩ <;> simp [apply_fixes, hg, ho]

/-- C10 witness: the keyless environment on one pending defect. -/
theorem c10_no_key_no_mutation_witness :
    (apply_fixes keylessEnv [fxPending]).status = "failed"
    ∧ (apply_fixes keylessEnv [fxPending]).errors_fixed = 0
    ∧ (apply_fixes keylessEnv [fxPending]).fixes = [fxPending]
    ∧ (apply_fixes keylessEnv [fxPending]).fs = keylessEnv.fs
    ∧ (apply_fixes keylessEnv [fxPending]).requested = []
    ∧ (apply_fixes keylessEnv [fxPending]).error_message
        = "No API key configured (GROQ_API_KEY or OPENAI_API_KEY required)" :=
  c10_no_key_no_mutation keylessEnv [fxPending] rfl rfl

/-! ## C6 -/

/-- C6: with a provider configured, every pending defect whose file path
matches a recognized test-path convention is marked SKIPPED by the
dispatch pass, and its file is never among the provider requests. -/
theorem c6_test_paths_skipped (env : FixEnv) (fixes : List FixItem) (f : FixItem)
    (hkey : truthy env.groq_key = true ∨ truthy env.openai_key = true)
    (_hmem : f ∈ fixes) (hp : f.status = "pending") (hs : matchesSkip f.file = true) :
    (apply_fixes env fixes).fixes = fixes.map (updateFix env)
    ∧ updateFix env f
        = { f with status := "skipped", fix_description := "Test file - skipped" }
    ∧ f.file ∉ (apply_fixes env fixes).requested := by
  have hcond : (!truthy env.groq_key && !truthy env.openai_key) = false := by
    rcases hkey with h | h <;> simp [h]
  refine ⟨?_, ?_, ?_⟩
  · simp [apply_fixes, hcond]
  · simp [updateFix, hp, hs]
  · simp only [apply_fixes, hcond, Bool.false_eq_true, if_false]
    exact skip_file_not_requested env fixes f.file hs

/-- C6 witness: a Groq-keyed environment and a pending defect in
`test_app.py`. -/
theorem c6_test_paths_skipped_witness :
    (apply_fixes keyedEnv [fxSkip]).fixes = [fxSkip].map (updateFix keyedEnv)
    ∧ updateFix keyedEnv fxSkip
        = { fxSkip with status := "skipped", fix_description := "Test file - skipped" }
    ∧ fxSkip.file ∉ (apply_fixes keyedEnv [fxSkip]).requested :=
  c6_test_paths_skipped keyedEnv [fxSkip] fxSkip (Or.inl rfl) (by simp) rfl (by decide)

/-! ## C8 -/

theorem errorsFixed_of_filesFixed (env : FixEnv) (fixes : List FixItem)
    (h : filesFixedCount env fixes = 0) : errorsFixedCount env fixes = 0 := by
  by_contra hne
  obtain ⟨f, hf⟩ := List.length_pos_iff_exists_mem.1 (Nat.pos_of_ne_zero hne)
  have hf1 := (List.mem_filter.1 hf).1
  have hf2 := (List.mem_filter.1 hf).2
  rw [Bool.and_eq_true] at hf2
  have hd : f.file ∈ dispatchFiles fixes := by
    unfold dispatchFiles insertionKeys
    exact foldl_insert_complete _ _ _
      (Or.inr (List.mem_map.2 ⟨f, List.mem_filter.2 ⟨hf1, hf2.1⟩, rfl⟩))
  have hmem : f.file ∈ (dispatchFiles fixes).filter
      (fun file => isFixedOutcome (fileOutcome env file)) :=
    List.mem_filter.2 ⟨hd, hf2.2⟩
  have hpos := List.length_pos_of_mem hmem
  unfold filesFixedCount at h
  omega

theorem append_right_nonempty (a b : String) (hb : b.length ≠ 0) : a ++ b ≠ "" := by
  intro h
  have h2 := congrArg String.length h
  rw [String.length_append] at h2
  have h0 : String.length "" = 0 := rfl
  omega

/-- C8: with a provider configured and pending work in the pass, if zero
files are successfully patched then the pass returns status `failed`
with a non-empty error message, and the router ends the workflow
instead of proceeding to verification. -/
theorem c8_zero_fixed_marks_failed (env : FixEnv) (fixes : List FixItem)
    (hkey : truthy env.groq_key = true ∨ truthy env.openai_key = true)
    (_hpend : ∃ f ∈ fixes, f.status = "pending")
    (hzero : (apply_fixes env fixes).files_fixed = 0) :
    (apply_fixes env fixes).status = "failed"
    ∧ (apply_fixes env fixes).error_message ≠ ""
    ∧ route_after_fix (apply_fixes env fixes).status = Route.toEnd := by
  have hcond : (!truthy env.groq_key && !truthy env.openai_key) = false := by
    rcases hkey with h | h <;> simp [h]
  have hz : filesFixedCount env fixes = 0 := by
    simpa [apply_fixes, hcond] using hzero
  have he : errorsFixedCount env fixes = 0 := errorsFixed_of_filesFixed env fixes hz
  refine ⟨?_, ?_, ?_⟩
  · simp [apply_fixes, hcond, he]
  · simp only [apply_fixes, hcond, Bool.false_eq_true, if_false, he, gt_iff_lt,
      Nat.lt_irrefl]
    exact append_right_nonempty _ " API key and quota" (by decide)
  · simp [apply_fixes, hcond, he, route_after_fix]

/-- C8 witness: keyed environment, one pending defect, provider always
failing: zero files are patched and the run is marked failed. -/
theorem c8_zero_fixed_marks_failed_witness :
    (apply_fixes keyedEnv [fxPending]).status = "failed"
    ∧ (apply_fixes keyedEnv [fxPending]).error_message ≠ ""
    ∧ route_after_fix (apply_fixes keyedEnv [fxPending]).status = Route.toEnd :=
  c8_zero_fixed_marks_failed keyedEnv [fxPending] (Or.inl rfl)
    ⟨fxPending, by simp, rfl⟩ rfl

/-! ## C9 -/

theorem pytestScan_shape (fuel : Nat) :
    ∀ (cs : List Char) (d : FixItem), d ∈ pytestScan fuel cs →
      ∃ fp tn, d = mkPytestFix fp tn := by
  induction fuel with
  | zero => intro cs d h; simp [pytestScan] at h
  | succ n ih =>
    intro cs d h
    match cs with
    | [] => simp [pytestScan] at h
    | c :: rest =>
      rw [pytestScan] at h
      cases hm : matchPytestAt (c :: rest) with
      | none =>
        rw [hm] at h
        exact ih rest d h
      | some v =>
        obtain ⟨fp, tn, r⟩ := v
        rw [hm] at h
        rcases List.mem_cons.1 h with h1 | h1
        · exact ⟨fp, tn, h1⟩
        · exact ih r d h1

/-- C9: every defect the pytest parser produces has line 0 (and kind
LOGIC, status PENDING); whenever its file path matches the dispatch
engine's test-path conventions, a keyed dispatch pass marks it SKIPPED
and never requests that file from the provider. -/
theorem c9_pytest_line_zero_skipped (raw : String) (d : FixItem)
    (hd : d ∈ parse_pytest raw) :
    d.line = 0 ∧ d.type = "LOGIC" ∧ d.status = "pending"
    ∧ (∀ (env : FixEnv) (fixes : List FixItem),
        truthy env.groq_key = true ∨ truthy env.openai_key = true →
        matchesSkip d.file = true →
        updateFix env d
          = { d with status := "skipped", fix_description := "Test file - skipped" }
        ∧ d.file ∉ (apply_fixes env fixes).requested) := by
  obtain ⟨fp, tn, rfl⟩ := pytestScan_shape _ _ d hd
  refine ⟨rfl, rfl, rfl, ?_⟩
  intro env fixes hkey hs
  have hcond : (!truthy env.groq_key && !truthy env.openai_key) = false := by
    rcases hkey with h | h <;> simp [h]
  have hs2 : matchesSkip fp = true := by simpa [mkPytestFix, build_fix_dict] using hs
  constructor
  · simp [updateFix, mkPytestFix, build_fix_dict, hs2]
  · simp only [apply_fixes, hcond, Bool.false_eq_true, if_false]
    exact skip_file_not_requested env fixes _ hs

/-- C9 witness: one failing test in `tests/test_app.py`, keyed
environment. -/
theorem c9_pytest_line_zero_skipped_witness :
    c9Fix.line = 0 ∧ c9Fix.type = "LOGIC" ∧ c9Fix.status = "pending"
    ∧ updateFix keyedEnv c9Fix
        = { c9Fix with status := "skipped", fix_description := "Test file - skipped" }
    ∧ c9Fix.file ∉ (apply_fixes keyedEnv [c9Fix]).requested := by
  have h := c9_pytest_line_zero_skipped c9Raw c9Fix (by decide)
  have h4 := h.2.2.2 keyedEnv [c9Fix] (Or.inl rfl) (by decide)
  exact ⟨h.1, h.2.1, h.2.2.1, h4.1, h4.2⟩

/-! ## C2 -/

theorem mem_dedupGo (l : List FixItem) :
    ∀ (seen : List String) (f : FixItem), f ∈ dedupGo seen l → f ∈ l := by
  induction l with
  | nil => intro seen f h; simp [dedupGo] at h
  | cons g t ih =>
    intro seen f h
    rw [dedupGo] at h
    split at h
    · exact List.mem_cons_of_mem _ (ih _ _ h)
    · rcases List.mem_cons.1 h with h1 | h1
      · simp [h1]
      · exact List.mem_cons_of_mem _ (ih _ _ h1)

theorem filterNewFixes_spec (l : List FixItem) :
    ∀ (fps : List String) (f : FixItem),
      f ∈ filterNewFixes fps l → f ∈ l ∧ fingerprintOf f ∉ fps := by
  induction l with
  | nil => intro fps f h; simp [filterNewFixes] at h
  | cons g t ih =>
    intro fps f h
    rw [filterNewFixes] at h
    split at h
    · obtain ⟨h1, h2⟩ := ih _ _ h
      exact ⟨List.mem_cons_of_mem _ h1, h2⟩
    · rcases List.mem_cons.1 h with h1 | h1
      · subst h1; exact ⟨List.mem_cons_self _ _, by assumption⟩
      · obtain ⟨h2, h3⟩ := ih _ _ h1
        refine ⟨List.mem_cons_of_mem _ h2, fun hc => h3 (List.mem_cons_of_mem _ hc)⟩

/-- C2: the merged history an analysis pass returns contains every
previously terminal defect, and everything in it is either such a
terminal defect or a newly forwarded pending defect whose fingerprint
does not occur among the terminal ones — a terminal fingerprint is
never reintroduced as PENDING. -/
theorem c2_merge_history_invariant (old new : List FixItem)
    (h : ∀ f ∈ new, f.status = "pending") :
    (∀ f ∈ old, isTerminal f = true → f ∈ (analyze_errors old new).fixes)
    ∧ (∀ f ∈ (analyze_errors old new).fixes,
        (isTerminal f = true ∧ f ∈ old)
        ∨ (f.status = "pending" ∧ f ∈ new
            ∧ fingerprintOf f ∉ (old.filter (fun g => isTerminal g)).map fingerprintOf)) := by
  constructor
  · intro f hf ht
    show f ∈ _ ++ _
    exact List.mem_append.2 (Or.inl (List.mem_filter.2 ⟨hf, ht⟩))
  · intro f hf
    replace hf : f ∈ _ ++ _ := hf
    rcases List.mem_append.1 hf with h1 | h1
    · exact Or.inl ⟨(List.mem_filter.1 h1).2, (List.mem_filter.1 h1).1⟩
    · obtain ⟨hmem, hfp⟩ := filterNewFixes_spec _ _ _ h1
      have hnew : f ∈ new := mem_dedupGo _ _ _ (List.take_subset _ _ hmem)
      exact Or.inr ⟨h f hnew, hnew, hfp⟩

/-- C2 witness: one terminal defect in history, one freshly parsed
pending defect. -/
theorem c2_merge_history_invariant_witness :
    (∀ f ∈ [fxFixed], isTerminal f = true → f ∈ (analyze_errors [fxFixed] [fxPending]).fixes)
    ∧ (∀ f ∈ (analyze_errors [fxFixed] [fxPending]).fixes,
        (isTerminal f = true ∧ f ∈ [fxFixed])
        ∨ (f.status = "pending" ∧ f ∈ [fxPending]
            ∧ fingerprintOf f
              ∉ ([fxFixed].filter (fun g => isTerminal g)).map fingerprintOf)) :=
  c2_merge_history_invariant [fxFixed] [fxPending] (by decide)

/-! ## C1 -/

/-- C1 (code bug evidence): a run state whose only history entry is an
already FIXED defect and whose re-extraction is clean has zero PENDING
defects in the merged result, yet `verify_fixes` returns
`verify_passed = false` and status `fixing` instead of finalizing to
`pushing`, because it counts terminal history entries as remaining
errors. -/
theorem c1_zero_pending_not_finalized :
    countPending (analyze_errors c1State.fixes []).fixes = 0
    ∧ (verify_fixes c1State []).verify_passed = false
    ∧ (verify_fixes c1State []).status = "fixing"
    ∧ route_after_verify (verify_fixes c1State []).status = Route.toFix := by
  refine ⟨?_, ?_, ?_, ?_⟩ <;> rfl

/-! ## C4 -/

/-- C4 (code bug evidence): on the diagnostic line
`src/a.py:10:1: F401 ...` the flake8 parser produces no defect at all,
because the compiled pattern accepts only `[EW]`-prefixed codes, even
though the parser's own type map classifies F401 as IMPORT. -/
theorem c4_flake8_f_code_dropped :
    parse_flake8 c4Input = []
    ∧ FLAKE8_TYPE_MAP.lookup "F401" = some "IMPORT" := by
  refine ⟨?_, ?_⟩ <;> rfl

/-- Sanity anchor for the flake8 scanner model: an `E`-coded diagnostic
of the same shape is parsed into exactly one defect. -/
theorem flake8_e_code_parses :
    parse_flake8 "src/a.py:10:1: E501 line too long"
      = [build_fix_dict "LINTING" "src/a.py" 10 "line too long" "shorten the line length"] := by
  decide

/-! ## C7 -/

theorem classifyStep_generic (api m : String) (a : Nat)
    (h1 : isRateLimitErr m = false) (h2 : isQuotaErr m = false)
    (h3 : isAuthErr m = false) (h4 : isNetworkErr m = false) (ha : a < 4) :
    classifyStep api 5 a m = .contWait (2 ^ a + 1) := by
  simp [classifyStep, h1, h2, h3, h4, ha]

theorem classifyStep_generic_last (api m : String)
    (h1 : isRateLimitErr m = false) (h2 : isQuotaErr m = false)
    (h3 : isAuthErr m = false) :
    classifyStep api 5 4 m
      = .raiseExn (api ++ " API failed after " ++ Nat.repr 5 ++ " attempts: " ++ m.take 200) := by
  simp [classifyStep, h1, h2, h3]

theorem empty_response_generic :
    isRateLimitErr "Empty response from API" = false
    ∧ isQuotaErr "Empty response from API" = false
    ∧ isAuthErr "Empty response from API" = false
    ∧ isNetworkErr "Empty response from API" = false := by
  decide

theorem retryGo_generic_cont (outcomes : Nat → AttemptOutcome) (api : String)
    (a r : Nat) (waits : List Nat) (h : genericFailure (outcomes a)) (ha : a < 4) :
    retryGo outcomes api 5 a (r + 1) waits
      = retryGo outcomes api 5 (a + 1) r (waits ++ [2 ^ a + 1]) := by
  rcases h with h | ⟨m, hm, h1, h2, h3, h4⟩
  · have hc := classifyStep_generic api "Empty response from API" a
      empty_response_generic.1 empty_response_generic.2.1
      empty_response_generic.2.2.1 empty_response_generic.2.2.2 ha
    rw [retryGo, h]
    simp [hc]
  · have hc := classifyStep_generic api m a h1 h2 h3 h4 ha
    rw [retryGo, hm]
    simp [hc]

theorem retryGo_success (outcomes : Nat → AttemptOutcome) (api : String)
    (a r : Nat) (waits : List Nat) (c : String)
    (h : outcomes a = .ok c) (hc : c ≠ "") :
    retryGo outcomes api 5 a (r + 1) waits
      = { result := .ok (some c), waits := waits } := by
  rw [retryGo, h]
  simp [hc]

theorem retryGo_generic_raise (outcomes : Nat → AttemptOutcome) (api : String)
    (waits : List Nat) (h : genericFailure (outcomes 4)) :
    ∃ m, retryGo outcomes api 5 4 1 waits = { result := .error m, waits := waits } := by
  rcases h with h | ⟨m, hm, h1, h2, h3, h4⟩
  · have hmsg := classifyStep_generic_last api "Empty response from API"
      empty_response_generic.1 empty_response_generic.2.1 empty_response_generic.2.2.1
    refine ⟨api ++ " API failed after " ++ Nat.repr 5 ++ " attempts: "
      ++ "Empty response from API".take 200, ?_⟩
    rw [retryGo, h]
    simp [hmsg]
  · have hmsg := classifyStep_generic_last api m h1 h2 h3
    refine ⟨api ++ " API failed after " ++ Nat.repr 5 ++ " attempts: " ++ m.take 200, ?_⟩
    rw [retryGo, hm]
    simp [hmsg]

/-- C7 counterexample: with every attempt failing generically, the
backoff waits are 2, 3, 5 and 9 seconds — the first wait is 2 seconds,
not the claimed 1 second (`2 ** attempt + 1` starts at 2; the inline
comment `1s, 3s, 5s, 9s, 17s` in the source does not match its own
formula). -/
theorem c7_first_wait_is_two :
    (call_ai_with_retry (fun _ => AttemptOutcome.exn "boom") "Groq" 5).waits = [2, 3, 5, 9]
    ∧ (call_ai_with_retry (fun _ => AttemptOutcome.exn "boom") "Groq" 5).waits.head?
        ≠ some 1 := by
  constructor
  · decide
  · decide

/-- C7 amended: a provider failure not classified rate-limit, quota,
authentication or network — an empty provider response included — is
retried under the generic branch with waits `2 ^ attempt + 1`, i.e.
2, 3, 5, 9 seconds (the 17-second fifth value of the formula is never
slept: the fifth and last attempt re-raises instead), up to the
5-attempt limit. -/
theorem c7_generic_backoff (outcomes : Nat → AttemptOutcome) (k : Nat) (c : String)
    (hk5 : k ≤ 5)
    (hfail : ∀ a, a < k → genericFailure (outcomes a))
    (hsucc : k < 5 → outcomes k = .ok c ∧ c ≠ "") :
    (call_ai_with_retry outcomes "Groq" 5).waits = [2, 3, 5, 9, 17].take (min k 4)
    ∧ (k < 5 → (call_ai_with_retry outcomes "Groq" 5).result = .ok (some c))
    ∧ (k = 5 → ∃ m, (call_ai_with_retry outcomes "Groq" 5).result = .error m) := by
  have e0 : call_ai_with_retry outcomes "Groq" 5 = retryGo outcomes "Groq" 5 0 5 [] := rfl
  interval_cases k
  · obtain ⟨h, hc⟩ := hsucc (by omega)
    have e := e0.trans (retryGo_success outcomes "Groq" 0 4 [] c h hc)
    rw [e]
    exact ⟨rfl, fun _ => rfl, fun h5 => absurd h5 (by omega)⟩
  · obtain ⟨h, hc⟩ := hsucc (by omega)
    have e := e0.trans ((retryGo_generic_cont outcomes "Groq" 0 4 [] (hfail 0 (by omega))
        (by omega)).trans
      (retryGo_success outcomes "Groq" 1 3 _ c h hc))
    rw [e]
    exact ⟨rfl, fun _ => rfl, fun h5 => absurd h5 (by omega)⟩
  · obtain ⟨h, hc⟩ := hsucc (by omega)
    have e := e0.trans ((retryGo_generic_cont outcomes "Groq" 0 4 [] (hfail 0 (by omega))
        (by omega)).trans
      ((retryGo_generic_cont outcomes "Groq" 1 3 _ (hfail 1 (by omega)) (by omega)).trans
        (retryGo_success outcomes "Groq" 2 2 _ c h hc)))
    rw [e]
    exact ⟨rfl, fun _ => rfl, fun h5 => absurd h5 (by omega)⟩
  · obtain ⟨h, hc⟩ := hsucc (by omega)
    have e := e0.trans ((retryGo_generic_cont outcomes "Groq" 0 4 [] (hfail 0 (by omega))
        (by omega)).trans
      ((retryGo_generic_cont outcomes "Groq" 1 3 _ (hfail 1 (by omega)) (by omega)).trans
        ((retryGo_generic_cont outcomes "Groq" 2 2 _ (hfail 2 (by omega)) (by omega)).trans
          (retryGo_success outcomes "Groq" 3 1 _ c h hc))))
    rw [e]
    exact ⟨rfl, fun _ => rfl, fun h5 => absurd h5 (by omega)⟩
  · obtain ⟨h, hc⟩ := hsucc (by omega)
    have e := e0.trans ((retryGo_generic_cont outcomes "Groq" 0 4 [] (hfail 0 (by omega))
        (by omega)).trans
      ((retryGo_generic_cont outcomes "Groq" 1 3 _ (hfail 1 (by omega)) (by omega)).trans
        ((retryGo_generic_cont outcomes "Groq" 2 2 _ (hfail 2 (by omega)) (by omega)).trans
          ((retryGo_generic_cont outcomes "Groq" 3 1 _ (hfail 3 (by omega)) (by omega)).trans
            (retryGo_success outcomes "Groq" 4 0 _ c h hc)))))
    rw [e]
    exact ⟨rfl, fun _ => rfl, fun h5 => absurd h5 (by omega)⟩
  · obtain ⟨m, hm⟩ := retryGo_generic_raise outcomes "Groq"
      ((([] ++ [2 ^ 0 + 1] ++ [2 ^ 1 + 1]) ++ [2 ^ 2 + 1]) ++ [2 ^ 3 + 1])
      (hfail 4 (by omega))
    have e := e0.trans ((retryGo_generic_cont outcomes "Groq" 0 4 [] (hfail 0 (by omega))
        (by omega)).trans
      ((retryGo_generic_cont outcomes "Groq" 1 3 _ (hfail 1 (by omega)) (by omega)).trans
        ((retryGo_generic_cont outcomes "Groq" 2 2 _ (hfail 2 (by omega)) (by omega)).trans
          ((retryGo_generic_cont outcomes "Groq" 3 1 _ (hfail 3 (by omega)) (by omega)).trans
            hm))))
    rw [e]
    exact ⟨rfl, fun h5 => absurd h5 (by omega), fun _ => ⟨m, rfl⟩⟩

/-- C7 witness: empty response, then a generic exception, then success:
two generic waits of 2 and 3 seconds, then the content is returned. -/
theorem c7_generic_backoff_witness :
    (call_ai_with_retry c7Outcomes "Groq" 5).waits = [2, 3, 5, 9, 17].take (min 2 4)
    ∧ (call_ai_with_retry c7Outcomes "Groq" 5).result = .ok (some "fixed code") := by
  have h := c7_generic_backoff c7Outcomes 2 "fixed code" (by omega)
    (by
      intro a ha
      interval_cases a
      · exact Or.inl rfl
      · exact Or.inr ⟨"boom", rfl, by decide, by decide, by decide, by decide⟩)
    (fun _ => ⟨rfl, by decide⟩)
  exact ⟨h.1, h.2.1 (by omega)⟩

/-! ## C5 -/

theorem route_after_verify_toFix (st : String)
    (h : route_after_verify st = Route.toFix) : st = "fixing" := by
  unfold route_after_verify at h
  by_cases hs : st == "fixing"
  · exact eq_of_beq hs
  · rw [if_neg (by simp [hs])] at h
    exact absurd h (by simp)

theorem verify_fixing_inv (s : VerifyState) (x : List FixItem)
    (h : (verify_fixes s x).status = "fixing") :
    (verify_fixes s x).retry_count = s.retry_count + 1
    ∧ s.retry_count < s.retry_limit := by
  by_cases h0 : s.errors_found = 0
  · simp [verify_fixes, h0] at h
  · by_cases h1 : (analyze_errors s.fixes x).fixes.length = 0
    · simp [verify_fixes, h0, h1] at h
    · by_cases h2 : s.retry_count < s.retry_limit
      · exact ⟨by simp [verify_fixes, h0, h1, h2], h2⟩
      · simp [verify_fixes, h0, h1, h2] at h

theorem runLoop_step_failed (envs : Nat → FixEnv) (extracts : Nat → List FixItem)
    (i F : Nat) (s : VerifyState)
    (h1 : route_after_verify (verify_fixes s (extracts i)).status = Route.toFix)
    (h2 : route_after_fix (apply_fixes (envs i) (verify_fixes s (extracts i)).fixes).status
      = Route.toEnd) :
    runLoop envs extracts i (F + 1) s = some (.runFailed, i + 1) := by
  rw [runLoop]
  simp [h1, h2]

theorem runLoop_step_cont (envs : Nat → FixEnv) (extracts : Nat → List FixItem)
    (i F : Nat) (s : VerifyState)
    (h1 : route_after_verify (verify_fixes s (extracts i)).status = Route.toFix)
    (h2 : ¬ route_after_fix (apply_fixes (envs i) (verify_fixes s (extracts i)).fixes).status
      = Route.toEnd) :
    runLoop envs extracts i (F + 1) s
      = runLoop envs extracts (i + 1) F
          { errors_found := (verify_fixes s (extracts i)).errors_found,
            retry_count := (verify_fixes s (extracts i)).retry_count,
            retry_limit := s.retry_limit,
            fixes := (apply_fixes (envs i) (verify_fixes s (extracts i)).fixes).fixes } := by
  rw [runLoop]
  simp [h1, h2]

theorem runLoop_step_pass (envs : Nat → FixEnv) (extracts : Nat → List FixItem)
    (i F : Nat) (s : VerifyState)
    (h1 : ¬ route_after_verify (verify_fixes s (extracts i)).status = Route.toFix)
    (hp : (verify_fixes s (extracts i)).verify_passed = true) :
    runLoop envs extracts i (F + 1) s = some (.finalize, i + 1) := by
  rw [runLoop]
  simp [h1, hp]

theorem runLoop_step_abandon (envs : Nat → FixEnv) (extracts : Nat → List FixItem)
    (i F : Nat) (s : VerifyState)
    (h1 : ¬ route_after_verify (verify_fixes s (extracts i)).status = Route.toFix)
    (hp : (verify_fixes s (extracts i)).verify_passed = false) :
    runLoop envs extracts i (F + 1) s = some (.abandon, i + 1) := by
  rw [runLoop]
  simp [h1, hp]

theorem runLoop_total (fuel : Nat) :
    ∀ (envs : Nat → FixEnv) (extracts : Nat → List FixItem) (i : Nat) (s : VerifyState),
      s.retry_limit - s.retry_count + 1 ≤ fuel →
      ∃ o n, runLoop envs extracts i fuel s = some (o, n)
        ∧ n ≤ i + (s.retry_limit - s.retry_count + 1) := by
  induction fuel with
  | zero => intro _ _ _ s h; omega
  | succ F ih =>
    intro envs extracts i s h
    by_cases hroute : route_after_verify (verify_fixes s (extracts i)).status = Route.toFix
    · obtain ⟨hrc, hlt⟩ := verify_fixing_inv s (extracts i)
        (route_after_verify_toFix _ hroute)
      by_cases hfail : route_after_fix
          (apply_fixes (envs i) (verify_fixes s (extracts i)).fixes).status = Route.toEnd
      · exact ⟨.runFailed, i + 1, runLoop_step_failed envs extracts i F s hroute hfail,
          by omega⟩
      · rw [runLoop_step_cont envs extracts i F s hroute hfail]
        obtain ⟨o, n, heq, hn⟩ := ih envs extracts (i + 1)
          { errors_found := (verify_fixes s (extracts i)).errors_found,
            retry_count := (verify_fixes s (extracts i)).retry_count,
            retry_limit := s.retry_limit,
            fixes := (apply_fixes (envs i) (verify_fixes s (extracts i)).fixes).fixes }
          (by simp only [hrc]; omega)
        refine ⟨o, n, heq, ?_⟩
        simp only [hrc] at hn
        omega
    · by_cases hp : (verify_fixes s (extracts i)).verify_passed
      · exact ⟨.finalize, i + 1, runLoop_step_pass envs extracts i F s hroute hp, by omega⟩
      · exact ⟨.abandon, i + 1,
          runLoop_step_abandon envs extracts i F s hroute (by simpa using hp), by omega⟩

/-- C5 amended: for every sequence of re-extraction results and
dispatch environments, the convergence loop terminates within
`retry_limit - retry_count + 1` verify rounds (`retry_limit + 1`
re-extraction passes for a fresh run); the terminal outcome is
finalize, abandon, or the run-failed exit taken when a dispatch pass
fixes nothing — never an infinite loop. -/
theorem c5_loop_terminates (envs : Nat → FixEnv) (extracts : Nat → List FixItem)
    (s : VerifyState) :
    ∃ o n, runLoop envs extracts 0 (s.retry_limit - s.retry_count + 1) s = some (o, n)
      ∧ n ≤ s.retry_limit - s.retry_count + 1 := by
  obtain ⟨o, n, h1, h2⟩ := runLoop_total _ envs extracts 0 s (le_refl _)
  exact ⟨o, n, h1, by omega⟩

/-- C5 counterexample: with one pending defect re-extracted each round
and a provider that always fails, the loop's terminal outcome is the
run-failed exit — neither finalize nor abandon, refuting the claimed
two-outcome dichotomy. -/
theorem c5_loop_failed_outcome :
    runLoop c5Envs c5Extracts 0 6 c5State = some (LoopOutcome.runFailed, 1)
    ∧ LoopOutcome.runFailed ≠ LoopOutcome.finalize
    ∧ LoopOutcome.runFailed ≠ LoopOutcome.abandon := by
  refine ⟨?_, by decide, by decide⟩
  decide

/-! ## C3 -/

theorem dedupGo_nodup (l : List FixItem) :
    ∀ seen : List String,
      ((dedupGo seen l).map FixItem.id).Nodup ∧ ∀ g ∈ dedupGo seen l, g.id ∉ seen := by
  induction l with
  | nil =>
    intro seen
    refine ⟨by simp [dedupGo], ?_⟩
    intro g hg
    simp [dedupGo] at hg
  | cons f t ih =>
    intro seen
    by_cases hid : f.id ∈ seen
    · rw [dedupGo, if_pos hid]
      exact ih seen
    · rw [dedupGo, if_neg hid]
      obtain ⟨ihn, ihs⟩ := ih (f.id :: seen)
      refine ⟨?_, ?_⟩
      · rw [List.map_cons, List.nodup_cons]
        refine ⟨?_, ihn⟩
        intro hc
        obtain ⟨g, hg1, hg2⟩ := List.mem_map.1 hc
        exact ihs g hg1 (hg2 ▸ List.mem_cons_self _ _)
      · intro g hg
        rcases List.mem_cons.1 hg with h1 | h1
        · subst h1; exact hid
        · exact fun hc => ihs g h1 (List.mem_cons_of_mem _ hc)

theorem dedupGo_covers (l : List FixItem) :
    ∀ (seen : List String) (f : FixItem), f ∈ l →
      f.id ∈ seen ∨ ∃ g ∈ dedupGo seen l, g.id = f.id := by
  induction l with
  | nil => intro seen f h; simp at h
  | cons f0 t ih =>
    intro seen f h
    rcases List.mem_cons.1 h with h1 | h1
    · subst h1
      by_cases hid : f.id ∈ seen
      · exact Or.inl hid
      · right
        refine ⟨f, ?_, rfl⟩
        rw [dedupGo, if_neg hid]
        exact List.mem_cons_self _ _
    · by_cases hid : f0.id ∈ seen
      · rcases ih seen f h1 with h2 | ⟨g, hg1, hg2⟩
        · exact Or.inl h2
        · right
          refine ⟨g, ?_, hg2⟩
          rw [dedupGo, if_pos hid]
          exact hg1
      · rcases ih (f0.id :: seen) f h1 with h2 | ⟨g, hg1, hg2⟩
        · rcases List.mem_cons.1 h2 with h3 | h3
          · right
            refine ⟨f0, ?_, h3.symm⟩
            rw [dedupGo, if_neg hid]
            exact List.mem_cons_self _ _
          · exact Or.inl h3
        · right
          refine ⟨g, ?_, hg2⟩
          rw [dedupGo, if_neg hid]
          exact List.mem_cons_of_mem _ hg1

theorem deduplicate_nodup (l : List FixItem) : ((deduplicate l).map FixItem.id).Nodup :=
  (dedupGo_nodup l []).1

theorem deduplicate_covers (l : List FixItem) :
    ∀ f ∈ l, ∃ g ∈ deduplicate l, g.id = f.id := by
  intro f h
  rcases dedupGo_covers l [] f h with h1 | h1
  · simp at h1
  · exact h1

theorem digitVal_digitChar (d : Nat) (h : d < 10) :
    digitVal (Nat.digitChar d) = d := by
  interval_cases d <;> rfl

theorem natDigits_eq (n : Nat) :
    natDigits n = if n < 10 then [Nat.digitChar n]
      else natDigits (n / 10) ++ [Nat.digitChar (n % 10)] := by
  rw [natDigits]

theorem toDigitsCore_eq_natDigits (fuel : Nat) :
    ∀ (n : Nat) (acc : List Char), n < fuel →
      Nat.toDigitsCore 10 fuel n acc = natDigits n ++ acc := by
  induction fuel with
  | zero => intro n acc h; omega
  | succ F ih =>
    intro n acc h
    simp only [Nat.toDigitsCore]
    by_cases h10 : n / 10 = 0
    · have hn : n < 10 := by
        by_contra hge
        have h1 : 10 / 10 ≤ n / 10 := Nat.div_le_div_right (by omega)
        rw [h10] at h1
        norm_num at h1
      rw [if_pos h10, natDigits_eq, if_pos hn, Nat.mod_eq_of_lt hn]
      rfl
    · have hn : ¬ n < 10 := fun hlt => h10 (Nat.div_eq_of_lt hlt)
      have hlt : n / 10 < F := by
        have h2 : n / 10 < n := Nat.div_lt_self (by omega) (by omega)
        omega
      rw [if_neg h10, ih (n / 10) _ hlt]
      conv_rhs => rw [natDigits_eq, if_neg hn]
      rw [List.append_assoc]
      rfl

theorem decValue_append_digit (l : List Char) (c : Char) :
    decValue (l ++ [c]) = decValue l * 10 + digitVal c := by
  simp [decValue, List.foldl_append]

theorem decValue_natDigits (n : Nat) : decValue (natDigits n) = n := by
  induction n using Nat.strong_induction_on with
  | _ n ih =>
    rw [natDigits_eq]
    by_cases h : n < 10
    · rw [if_pos h]
      simp [decValue, digitVal_digitChar n h]
    · rw [if_neg h]
      rw [decValue_append_digit, ih (n / 10) (Nat.div_lt_self (by omega) (by omega)),
        digitVal_digitChar _ (Nat.mod_lt _ (by omega))]
      omega

theorem natRepr_eq_digits (n : Nat) : Nat.repr n = (natDigits n).asString := by
  show (Nat.toDigits 10 n).asString = _
  rw [Nat.toDigits, toDigitsCore_eq_natDigits (n + 1) n [] (by omega), List.append_nil]

theorem natRepr_injective (n m : Nat) (h : Nat.repr n = Nat.repr m) : n = m := by
  rw [natRepr_eq_digits, natRepr_eq_digits] at h
  have h2 := congrArg decValue (List.asString_inj.1 h)
  rwa [decValue_natDigits, decValue_natDigits] at h2

theorem append_cons_cancel (c : Char) (a : List Char) :
    ∀ (a' b b' : List Char), c ∉ a → c ∉ a' →
      a ++ c :: b = a' ++ c :: b' → a = a' ∧ b = b' := by
  induction a with
  | nil =>
    intro a' b b' _ ha' h
    cases a' with
    | nil => simpa using h
    | cons x t =>
      simp only [List.nil_append, List.cons_append, List.cons.injEq] at h
      exfalso
      apply ha'
      rw [h.1]
      exact List.mem_cons_self _ _
  | cons x t ih =>
    intro a' b b' ha ha' h
    cases a' with
    | nil =>
      simp only [List.cons_append, List.nil_append, List.cons.injEq] at h
      exfalso
      apply ha
      rw [← h.1]
      exact List.mem_cons_self _ _
    | cons y t' =>
      simp only [List.cons_append, List.cons.injEq] at h
      obtain ⟨h1, h2⟩ := h
      have ht := ih t' b b' (fun hm => ha (List.mem_cons_of_mem _ hm))
        (fun hm => ha' (List.mem_cons_of_mem _ hm)) h2
      exact ⟨by rw [h1, ht.1], ht.2⟩

theorem map_slash_id (l : List Char) (h : '/' ∉ l) :
    l.map (fun c => if c = '/' then '_' else c) = l := by
  induction l with
  | nil => rfl
  | cons x t ih =>
    simp only [List.mem_cons, not_or] at h
    simp only [List.map_cons, ih h.2]
    rw [if_neg (fun he => h.1 he.symm)]

theorem build_fix_id_data (t f : String) (l : Nat) (hf : '/' ∉ f.data) :
    (build_fix_id t f l).data
      = t.data ++ '_' :: (f.data ++ '_' :: (Nat.repr l).data) := by
  show (t ++ "_" ++ pySlashToUnderscore f ++ "_" ++ Nat.repr l).data = _
  have hu : ("_" : String).data = ['_'] := rfl
  have hp : (pySlashToUnderscore f).data
      = f.data.map (fun c => if c = '/' then '_' else c) := rfl
  simp only [String.data_append, hu, hp, map_slash_id f.data hf]
  simp [List.append_assoc]

/-- C3 counterexample: two distinct triples, differing only in `/`
versus `_` inside the file path, receive the same fingerprint id. -/
theorem c3_fingerprint_not_injective :
    build_fix_id "LINTING" "a/b" 1 = build_fix_id "LINTING" "a_b" 1
    ∧ ("a/b" : String) ≠ "a_b" := by
  exact ⟨by decide, by decide⟩

/-- C3 amended: the fingerprint is a pure deterministic function of the
`(kind, file, line)` triple (independent of message text), and a single
pass's deduplication keeps exactly one record per id, so identical
triples collapse to one record; but the id is injective only on triples
whose kinds contain no underscore and whose files contain neither
underscore nor slash — the path sanitization of `build_fix_id` makes
triples differing in `/` versus `_` collide. -/
theorem c3_fingerprint_amended :
    (∀ (t f : String) (l : Nat) (m1 d1 m2 d2 : String),
      (build_fix_dict t f l m1 d1).id = (build_fix_dict t f l m2 d2).id)
    ∧ (∀ fixes : List FixItem,
        ((deduplicate fixes).map FixItem.id).Nodup
        ∧ ∀ f ∈ fixes, ∃ g ∈ deduplicate fixes, g.id = f.id)
    ∧ (∀ (t f : String) (l : Nat) (t' f' : String) (l' : Nat),
        '_' ∉ t.data → '_' ∉ t'.data →
        '_' ∉ f.data → '_' ∉ f'.data → '/' ∉ f.data → '/' ∉ f'.data →
        build_fix_id t f l = build_fix_id t' f' l' → t = t' ∧ f = f' ∧ l = l') := by
  refine ⟨fun t f l m1 d1 m2 d2 => rfl,
    fun fixes => ⟨deduplicate_nodup fixes, deduplicate_covers fixes⟩, ?_⟩
  intro t f l t' f' l' ht ht' hf hf' hs hs' heq
  have hd := congrArg String.data heq
  rw [build_fix_id_data t f l hs, build_fix_id_data t' f' l' hs'] at hd
  obtain ⟨h1, h2⟩ := append_cons_cancel '_' t.data t'.data _ _ ht ht' hd
  obtain ⟨h3, h4⟩ := append_cons_cancel '_' f.data f'.data _ _ hf hf' h2
  exact ⟨String.ext h1, String.ext h3, natRepr_injective l l' (String.ext h4)⟩

/-- C3 witness: the restricted injectivity applied at a concrete clean
triple. -/
theorem c3_fingerprint_amended_witness :
    ("LINTING" : String) = "LINTING" ∧ ("a.py" : String) = "a.py" ∧ (3 : Nat) = 3 :=
  c3_fingerprint_amended.2.2 "LINTING" "a.py" 3 "LINTING" "a.py" 3
    (by decide) (by decide) (by decide) (by decide) (by decide) (by decide) rfl
